import Mathlib

/-!
Verification of the query-options composer of the songkick-api crate
(`src/options.rs`): the `Options` / `Filter` / `Paging` / `Sort` data
model, the `FilterBuilder` and `OptionsBuilder` builders, and the
`format_with_options` URL composer, shallowly embedded in Lean.

Rust `u64` paging values are modelled as `Nat`: the code never performs
arithmetic on them (it only formats them in decimal), so no overflow
behaviour is observable.
-/

namespace Songkick

/-- Modelled from the spec: the percent-encoding utility `encode` lives in
`src/util.rs`, which is not part of the provided sources; only its import
(`use crate::util::encode`) and call sites are. Per the spec it escapes
every character beyond the unreserved set — notably punctuation such as
the hyphen (`2017-06-06` becomes `2017%2D06%2D06`) — so alphanumeric
characters pass through and every other character is escaped as `%XX`
(uppercase hex) over its UTF-8 bytes. -/
def utf8Bytes (n : Nat) : List Nat :=
  if n < 128 then [n]
  else if n < 2048 then [192 + n / 64, 128 + n % 64]
  else if n < 65536 then [224 + n / 4096, 128 + (n / 64) % 64, 128 + n % 64]
  else [240 + n / 262144, 128 + (n / 4096) % 64, 128 + (n / 64) % 64, 128 + n % 64]

/-- Uppercase hexadecimal digit for a value below 16. -/
def hexDigitChar (n : Nat) : Char :=
  if n < 10 then Char.ofNat (48 + n) else Char.ofNat (55 + n)

/-- Modelled from the spec: percent-escape of a single character (see
`utf8Bytes`): alphanumerics pass through, everything else becomes
`%XX` escapes of its UTF-8 bytes. -/
def encodeChar (c : Char) : String :=
  if c.isAlphanum then String.singleton c
  else String.join ((utf8Bytes c.toNat).map (fun b =>
    "%" ++ String.singleton (hexDigitChar (b / 16)) ++ String.singleton (hexDigitChar (b % 16))))

/-- Modelled from the spec: `crate::util::encode`, the percent-encoding
collaborator used by `format_with_options` for filter field values. -/
def encode (s : String) : String :=
  String.join (s.data.map encodeChar)

/-- `struct Filter` (fields in source order). -/
structure Filter where
  artist_name : Option String
  min_date : Option String
  max_date : Option String
  location : Option String

/-- `enum Sort` (named `SortOrder` here because `Sort` is a Lean keyword). -/
inductive SortOrder where
  | ASC
  | DESC

/-- `struct Paging` (fields in source order). -/
structure Paging where
  per_page : Nat
  page : Nat

/-- `pub struct Options`. -/
structure Options where
  paging : Option Paging
  filter : Option Filter
  sort : Option SortOrder

/-- `pub struct FilterBuilder` (private fields carry a `_v` suffix so the
public setter methods can keep their source names). -/
structure FilterBuilder where
  empty : Bool
  artist_name_v : Option String
  min_date_v : Option String
  max_date_v : Option String
  location_v : Option String

/-- `FilterBuilder::new`. -/
def FilterBuilder.new : FilterBuilder :=
  { empty := true, artist_name_v := none, min_date_v := none, max_date_v := none, location_v := none }

/-- `FilterBuilder::artist_name`. -/
def FilterBuilder.artist_name (b : FilterBuilder) (name : String) : FilterBuilder :=
  { b with empty := false, artist_name_v := some name }

/-- `FilterBuilder::min_date`. -/
def FilterBuilder.min_date (b : FilterBuilder) (min_date : String) : FilterBuilder :=
  { b with empty := false, min_date_v := some min_date }

/-- `FilterBuilder::max_date`. -/
def FilterBuilder.max_date (b : FilterBuilder) (max_date : String) : FilterBuilder :=
  { b with empty := false, max_date_v := some max_date }

/-- `FilterBuilder::location`. -/
def FilterBuilder.location (b : FilterBuilder) (location : String) : FilterBuilder :=
  { b with empty := false, location_v := some location }

/-- `FilterBuilder::build`. -/
def FilterBuilder.build (b : FilterBuilder) : Option Filter :=
  match b.empty with
  | false => some
      { max_date := b.max_date_v
        min_date := b.min_date_v
        artist_name := b.artist_name_v
        location := b.location_v }
  | true => none

/-- `pub struct OptionsBuilder` (private fields carry a `_v` suffix so the
public methods can keep their source names). -/
structure OptionsBuilder where
  filter_v : FilterBuilder
  paging_v : Option Paging
  sort_v : Option SortOrder

/-- `OptionsBuilder::new`. -/
def OptionsBuilder.new : OptionsBuilder :=
  { paging_v := none, filter_v := FilterBuilder.new, sort_v := none }

/-- `OptionsBuilder::paging`. -/
def OptionsBuilder.paging (b : OptionsBuilder) (page : Nat) (per_page : Nat) : OptionsBuilder :=
  { b with paging_v := some { per_page := per_page, page := page } }

/-- `OptionsBuilder::sort`. -/
def OptionsBuilder.sort (b : OptionsBuilder) (sort : SortOrder) : OptionsBuilder :=
  { b with sort_v := some sort }

/-- `OptionsBuilder::filter`: applies the caller's mutator to the inner
`FilterBuilder` (the Rust closure over `&mut FilterBuilder` becomes a
`FilterBuilder → FilterBuilder` function). -/
def OptionsBuilder.filter (b : OptionsBuilder) (f : FilterBuilder → FilterBuilder) : OptionsBuilder :=
  { b with filter_v := f b.filter_v }

/-- `OptionsBuilder::build`. -/
def OptionsBuilder.build (b : OptionsBuilder) : Options :=
  { paging := b.paging_v, filter := b.filter_v.build, sort := b.sort_v }

/-- `pub fn format_with_options`. Each Rust `if let` block appending to
`new_url` is an `Option` match threading the accumulator. -/
def format_with_options (url : String) (options : Option Options) : String :=
  match options with
  | some opts =>
    let new_url := url
    -- filtering
    let new_url :=
      match opts.filter with
      | some filter =>
        let new_url :=
          match filter.min_date with
          | some min_date => new_url ++ "&min_date=" ++ encode min_date
          | none => new_url
        let new_url :=
          match filter.max_date with
          | some max_date => new_url ++ "&max_date=" ++ encode max_date
          | none => new_url
        let new_url :=
          match filter.artist_name with
          | some artist_name => new_url ++ "&artist_name=" ++ encode artist_name
          | none => new_url
        let new_url :=
          match filter.location with
          | some location => new_url ++ "&location=" ++ encode location
          | none => new_url
        new_url
      | none => new_url
    -- pagination
    let new_url :=
      match opts.paging with
      | some paging =>
        let new_url := new_url ++ "&page=" ++ toString paging.page
        new_url ++ "&per_page=" ++ toString paging.per_page
      | none => new_url
    -- sorting
    let new_url :=
      match opts.sort with
      | some sort =>
        let order :=
          match sort with
          | SortOrder.ASC => "asc"
          | SortOrder.DESC => "desc"
        new_url ++ "&order=" ++ order
      | none => new_url
    new_url
  | none => url

end Songkick

namespace Songkick

/-- C1: with no options the composer returns the base URL unchanged. -/
theorem format_with_options_none_id (url : String) :
    format_with_options url none = url := rfl

/-- C3: an `OptionsBuilder::new().build()` with no setter applied composes
to the base URL unchanged. -/
theorem format_with_options_empty_opts_id (url : String) :
    format_with_options url (some OptionsBuilder.new.build) = url := rfl

/-- C2: with all seven fields set in one `Options`, the composer emits the
pairs in exactly the order `min_date, max_date, artist_name, location,
page, per_page, order`, for every choice of field values. -/
theorem format_with_options_fixed_order
    (url mi ma a l : String) (p pp : Nat) (s : SortOrder) :
    format_with_options url (some
      { paging := some { per_page := pp, page := p }
        filter := some { artist_name := some a, min_date := some mi, max_date := some ma,
                         location := some l }
        sort := some s }) =
    url ++ "&min_date=" ++ encode mi ++ "&max_date=" ++ encode ma
        ++ "&artist_name=" ++ encode a ++ "&location=" ++ encode l
        ++ "&page=" ++ toString p ++ "&per_page=" ++ toString pp
        ++ "&order=" ++ (match s with | SortOrder.ASC => "asc" | SortOrder.DESC => "desc") := by
  cases s <;> rfl

/-- C5: every builder setter is last-write-wins: calling it twice with `v1`
then `v2` before finalization builds the same value as calling it once
with `v2`. -/
theorem builders_last_write_wins :
    (∀ (b : FilterBuilder) (v1 v2 : String),
      ((b.artist_name v1).artist_name v2).build = (b.artist_name v2).build) ∧
    (∀ (b : FilterBuilder) (v1 v2 : String),
      ((b.min_date v1).min_date v2).build = (b.min_date v2).build) ∧
    (∀ (b : FilterBuilder) (v1 v2 : String),
      ((b.max_date v1).max_date v2).build = (b.max_date v2).build) ∧
    (∀ (b : FilterBuilder) (v1 v2 : String),
      ((b.location v1).location v2).build = (b.location v2).build) ∧
    (∀ (b : OptionsBuilder) (p1 pp1 p2 pp2 : Nat),
      ((b.paging p1 pp1).paging p2 pp2).build = (b.paging p2 pp2).build) ∧
    (∀ (b : OptionsBuilder) (s1 s2 : SortOrder),
      ((b.sort s1).sort s2).build = (b.sort s2).build) := by
  refine ⟨?_, ?_, ?_, ?_, ?_, ?_⟩
  all_goals intros
  all_goals rfl

/-- C6: the encoder escapes the hyphen, so `2017-06-06` always encodes to
`2017%2D06%2D06`, and a `min_date` filter with that value composes to
`&min_date=2017%2D06%2D06` appended to the base URL. -/
theorem encode_hyphen_date (url : String) :
    encode ( "2017-06-06") = "2017%2D06%2D06" ∧
    format_with_options url
        (some ((OptionsBuilder.new.filter (fun f => f.min_date ( "2017-06-06"))).build))
      = url ++ "&min_date=2017%2D06%2D06" := by
  constructor
  · decide
  · show url ++ "&min_date=" ++ encode ( "2017-06-06") = url ++ "&min_date=2017%2D06%2D06"
    rw [String.append_assoc]
    congr 1

/-- C7: `paging(2, 25)` plus `sort(DESC)` on the base `http://x/a?apikey=K`
yields exactly `http://x/a?apikey=K&page=2&per_page=25&order=desc`; in
general paging appends `page` then `per_page` as unencoded decimals and
`DESC` serializes to `order=desc`. -/
theorem format_paging_sort_desc (url : String) (p pp : Nat) :
    format_with_options ( "http://x/a?apikey=K")
        (some (((OptionsBuilder.new.paging 2 25).sort SortOrder.DESC).build))
      = "http://x/a?apikey=K&page=2&per_page=25&order=desc" ∧
    format_with_options url
        (some (((OptionsBuilder.new.paging p pp).sort SortOrder.DESC).build))
      = url ++ "&page=" ++ toString p ++ "&per_page=" ++ toString pp ++ "&order=desc" := by
  constructor
  · decide
  · show url ++ "&page=" ++ toString p ++ "&per_page=" ++ toString pp ++ "&order=" ++ "desc"
        = url ++ "&page=" ++ toString p ++ "&per_page=" ++ toString pp ++ "&order=desc"
    rw [String.append_assoc]
    congr 1

/-! ### Builder call traces (for the emptiness-collapsing invariant) -/

/-- One call to one of the four `FilterBuilder` setters. -/
inductive FilterSetter where
  | artist_name (v : String)
  | min_date (v : String)
  | max_date (v : String)
  | location (v : String)

/-- Apply one setter call to a `FilterBuilder`. -/
def FilterBuilder.applySetter (b : FilterBuilder) : FilterSetter → FilterBuilder
  | FilterSetter.artist_name v => b.artist_name v
  | FilterSetter.min_date v => b.min_date v
  | FilterSetter.max_date v => b.max_date v
  | FilterSetter.location v => b.location v

/-- Apply a sequence of setter calls, in order, to a `FilterBuilder`. -/
def FilterBuilder.applySetters (b : FilterBuilder) (l : List FilterSetter) : FilterBuilder :=
  l.foldl FilterBuilder.applySetter b

/-- A `Filter` has at least one of its four fields present. -/
def Filter.hasSomeField (f : Filter) : Bool :=
  f.artist_name.isSome || f.min_date.isSome || f.max_date.isSome || f.location.isSome

/-- A `FilterBuilder` has at least one of its four value fields present. -/
def FilterBuilder.hasSomeField (b : FilterBuilder) : Bool :=
  b.artist_name_v.isSome || b.min_date_v.isSome || b.max_date_v.isSome || b.location_v.isSome

lemma applySetter_hasSomeField (b : FilterBuilder) (x : FilterSetter) :
    (b.applySetter x).hasSomeField = true := by
  cases x <;>
    simp [FilterBuilder.applySetter, FilterBuilder.hasSomeField, FilterBuilder.artist_name,
      FilterBuilder.min_date, FilterBuilder.max_date, FilterBuilder.location]

lemma applySetter_empty (b : FilterBuilder) (x : FilterSetter) :
    (b.applySetter x).empty = false := by
  cases x <;> rfl

lemma applySetters_hasSomeField (l : List FilterSetter) (b : FilterBuilder)
    (h : b.hasSomeField = true) : (b.applySetters l).hasSomeField = true := by
  induction l generalizing b with
  | nil => exact h
  | cons x xs ih =>
    show ((b.applySetter x).applySetters xs).hasSomeField = true
    exact ih _ (applySetter_hasSomeField b x)

lemma applySetters_empty (l : List FilterSetter) (b : FilterBuilder)
    (h : b.empty = false) : (b.applySetters l).empty = false := by
  induction l generalizing b with
  | nil => exact h
  | cons x xs ih =>
    show ((b.applySetter x).applySetters xs).empty = false
    exact ih _ (applySetter_empty b x)

lemma build_of_empty_false (b : FilterBuilder) (h : b.empty = false) :
    b.build = some { artist_name := b.artist_name_v, min_date := b.min_date_v,
                     max_date := b.max_date_v, location := b.location_v } := by
  unfold FilterBuilder.build
  rw [h]

/-- C4: `FilterBuilder` finalization collapses emptiness: a builder that
received no setter call builds to `none`, and a builder that received at
least one setter call builds to a present `Filter` with at least one
field set. -/
theorem filter_build_collapses_emptiness (l : List FilterSetter) :
    (l = [] → (FilterBuilder.new.applySetters l).build = none) ∧
    (l ≠ [] → ∃ f, (FilterBuilder.new.applySetters l).build = some f ∧
      f.hasSomeField = true) := by
  constructor
  · rintro rfl
    rfl
  · intro h
    match l, h with
    | x :: xs, _ =>
      have he : (FilterBuilder.new.applySetters (x :: xs)).empty = false := by
        show ((FilterBuilder.new.applySetter x).applySetters xs).empty = false
        exact applySetters_empty xs _ (applySetter_empty _ x)
      have hs : (FilterBuilder.new.applySetters (x :: xs)).hasSomeField = true := by
        show ((FilterBuilder.new.applySetter x).applySetters xs).hasSomeField = true
        exact applySetters_hasSomeField xs _ (applySetter_hasSomeField _ x)
      exact ⟨_, build_of_empty_false _ he, hs⟩

/-- Witness for C4 at the empty trace and at a one-setter trace. -/
theorem filter_build_collapses_emptiness_witness :
    (FilterBuilder.new.applySetters []).build = none ∧
    ∃ f, (FilterBuilder.new.applySetters
        [FilterSetter.artist_name ( "Radiohead")]).build = some f ∧
      f.hasSomeField = true :=
  ⟨(filter_build_collapses_emptiness []).1 rfl,
   (filter_build_collapses_emptiness [FilterSetter.artist_name ( "Radiohead")]).2
     (List.cons_ne_nil _ _)⟩

/-! ### Frame/shape of the composed URL (C8) -/

/-- The filtering block of `format_with_options`, as a function of the
accumulated URL (its body is that block verbatim). -/
def filterApp (new_url : String) (f : Option Filter) : String :=
  match f with
  | some filter =>
    let new_url :=
      match filter.min_date with
      | some min_date => new_url ++ "&min_date=" ++ encode min_date
      | none => new_url
    let new_url :=
      match filter.max_date with
      | some max_date => new_url ++ "&max_date=" ++ encode max_date
      | none => new_url
    let new_url :=
      match filter.artist_name with
      | some artist_name => new_url ++ "&artist_name=" ++ encode artist_name
      | none => new_url
    let new_url :=
      match filter.location with
      | some location => new_url ++ "&location=" ++ encode location
      | none => new_url
    new_url
  | none => new_url

/-- The pagination block of `format_with_options`, as a function of the
accumulated URL. -/
def pagingApp (new_url : String) (p : Option Paging) : String :=
  match p with
  | some paging =>
    let new_url := new_url ++ "&page=" ++ toString paging.page
    new_url ++ "&per_page=" ++ toString paging.per_page
  | none => new_url

/-- The sorting block of `format_with_options`, as a function of the
accumulated URL. -/
def sortApp (new_url : String) (s : Option SortOrder) : String :=
  match s with
  | some sort =>
    let order :=
      match sort with
      | SortOrder.ASC => "asc"
      | SortOrder.DESC => "desc"
    new_url ++ "&order=" ++ order
  | none => new_url

/-- `format_with_options` is the three blocks applied in sequence. -/
lemma format_decomp (url : String) (opts : Options) :
    format_with_options url (some opts) =
      sortApp (pagingApp (filterApp url opts.filter) opts.paging) opts.sort := rfl

/-- Spec-side rendering of query pairs: each `(name, value)` pair becomes
`&name=value`, concatenated in order. -/
def renderPairs : List (String × String) → String
  | [] => ""
  | p :: ps => "&" ++ p.1 ++ "=" ++ p.2 ++ renderPairs ps

/-- The pairs the filtering block contributes, in emission order. -/
def filterPairs : Option Filter → List (String × String)
  | none => []
  | some f =>
    (match f.min_date with
     | some v => [( "min_date", encode v)]
     | none => []) ++
    (match f.max_date with
     | some v => [( "max_date", encode v)]
     | none => []) ++
    (match f.artist_name with
     | some v => [( "artist_name", encode v)]
     | none => []) ++
    (match f.location with
     | some v => [( "location", encode v)]
     | none => [])

/-- The pairs the pagination block contributes, in emission order. -/
def pagingPairs : Option Paging → List (String × String)
  | none => []
  | some pg => [( "page", toString pg.page), ( "per_page", toString pg.per_page)]

/-- The pair the sorting block contributes. -/
def sortPairs : Option SortOrder → List (String × String)
  | none => []
  | some s =>
    [( "order",
       match s with
       | SortOrder.ASC => "asc"
       | SortOrder.DESC => "desc")]

/-- All pairs `format_with_options` appends for a given `Options`. -/
def pairsOf (opts : Options) : List (String × String) :=
  filterPairs opts.filter ++ pagingPairs opts.paging ++ sortPairs opts.sort

lemma renderPairs_min_date (v : String) (ps : List (String × String)) :
    renderPairs (( "min_date", v) :: ps) = "&min_date=" ++ (v ++ renderPairs ps) := rfl

lemma renderPairs_max_date (v : String) (ps : List (String × String)) :
    renderPairs (( "max_date", v) :: ps) = "&max_date=" ++ (v ++ renderPairs ps) := rfl

lemma renderPairs_artist_name (v : String) (ps : List (String × String)) :
    renderPairs (( "artist_name", v) :: ps) = "&artist_name=" ++ (v ++ renderPairs ps) := rfl

lemma renderPairs_location (v : String) (ps : List (String × String)) :
    renderPairs (( "location", v) :: ps) = "&location=" ++ (v ++ renderPairs ps) := rfl

lemma renderPairs_page (v : String) (ps : List (String × String)) :
    renderPairs (( "page", v) :: ps) = "&page=" ++ (v ++ renderPairs ps) := rfl

lemma renderPairs_per_page (v : String) (ps : List (String × String)) :
    renderPairs (( "per_page", v) :: ps) = "&per_page=" ++ (v ++ renderPairs ps) := rfl

lemma renderPairs_order (v : String) (ps : List (String × String)) :
    renderPairs (( "order", v) :: ps) = "&order=" ++ (v ++ renderPairs ps) := rfl

lemma renderPairs_append (l1 l2 : List (String × String)) :
    renderPairs (l1 ++ l2) = renderPairs l1 ++ renderPairs l2 := by
  induction l1 with
  | nil => exact (String.empty_append _).symm
  | cons p ps ih => simp [renderPairs, ih, String.append_assoc]

lemma filterApp_shift (u : String) (f : Option Filter) :
    filterApp u f = u ++ renderPairs (filterPairs f) := by
  rcases f with _ | ⟨a, mi, ma, lo⟩
  · exact (String.append_empty u).symm
  · rcases mi with _ | mi <;> rcases ma with _ | ma <;> rcases a with _ | a <;>
      rcases lo with _ | lo <;>
      simp [filterApp, filterPairs, renderPairs, renderPairs_min_date, renderPairs_max_date,
        renderPairs_artist_name, renderPairs_location, String.append_assoc]

lemma pagingApp_shift (u : String) (p : Option Paging) :
    pagingApp u p = u ++ renderPairs (pagingPairs p) := by
  rcases p with _ | ⟨pp, pg⟩
  · exact (String.append_empty u).symm
  · simp [pagingApp, pagingPairs, renderPairs, renderPairs_page, renderPairs_per_page,
      String.append_assoc]

lemma sortApp_shift (u : String) (s : Option SortOrder) :
    sortApp u s = u ++ renderPairs (sortPairs s) := by
  rcases s with _ | s
  · exact (String.append_empty u).symm
  · cases s <;>
      simp [sortApp, sortPairs, renderPairs, renderPairs_order, String.append_assoc]

/-- C8: for every base URL and every `Options`, the composed URL is the
base URL followed by the appended pairs, each of the form `&name=value`,
with names drawn from the seven known parameter names; the composer never
touches the base URL and never inserts a `?`. -/
theorem format_appends_amp_pairs (url : String) (opts : Options) :
    format_with_options url (some opts) = url ++ renderPairs (pairsOf opts) ∧
    ((pairsOf opts).all fun p =>
      [ "min_date", "max_date", "artist_name", "location",
        "page", "per_page", "order"].contains p.1) = true := by
  constructor
  · rw [format_decomp, filterApp_shift, pagingApp_shift, sortApp_shift]
    simp [pairsOf, renderPairs_append, String.append_assoc]
  · rcases opts with ⟨pg, f, s⟩
    rcases f with _ | ⟨a, mi, ma, lo⟩
    · rcases pg with _ | pg <;> rcases s with _ | s <;> rfl
    · rcases a with _ | a <;> rcases mi with _ | mi <;> rcases ma with _ | ma <;>
        rcases lo with _ | lo <;> rcases pg with _ | pg <;> rcases s with _ | s <;> rfl

/-- C9: every operation of the component is total: the composer produces an
output string for any base URL and any (possibly absent) `Options`, and
every builder operation produces a value on every input — none has an
error condition. -/
theorem operations_total :
    (∀ (url : String) (o : Option Options), ∃ out : String, format_with_options url o = out) ∧
    (∀ (b : FilterBuilder) (v : String),
      (∃ r, b.artist_name v = r) ∧ (∃ r, b.min_date v = r) ∧
      (∃ r, b.max_date v = r) ∧ (∃ r, b.location v = r) ∧ (∃ r, b.build = r)) ∧
    (∀ (b : OptionsBuilder) (p pp : Nat) (s : SortOrder) (f : FilterBuilder → FilterBuilder),
      (∃ r, b.paging p pp = r) ∧ (∃ r, b.sort s = r) ∧
      (∃ r, b.filter f = r) ∧ (∃ r, b.build = r)) := by
  refine ⟨?_, ?_, ?_⟩
  all_goals intros
  all_goals repeat' constructor

/-- C10: `format_with_options` is deterministic: its output depends only on
its two arguments, so equal inputs give equal outputs. -/
theorem format_with_options_deterministic (u1 u2 : String) (o1 o2 : Option Options)
    (hu : u1 = u2) (ho : o1 = o2) :
    format_with_options u1 o1 = format_with_options u2 o2 := by
  rw [hu, ho]

/-- Witness for C10 at a concrete input. -/
theorem format_with_options_deterministic_witness :
    format_with_options ( "http://x/a?apikey=K") none
      = format_with_options ( "http://x/a?apikey=K") none :=
  format_with_options_deterministic _ _ _ _ rfl rfl

end Songkick
